import Mathlib

/-!
Shallow embedding of the room/turn synchronization server in
`src/server.py`.  Rooms, players, the grace timer and the socket
event handlers are modelled as pure functions from the registry
state and the event data to the new registry state together with
the list of emitted messages.  Timestamps are integers,
Python dicts are insertion-ordered association lists.
-/

namespace IslandServer

/-- A player record (`class Player` in `server.py`). -/
structure Player where
  sid : String
  island_name : String
  save_data : String
  is_turn_done : Bool
  action_queue : List String
deriving Repr, DecidableEq

/-- A room record (`class Room` in `server.py`): the player dict is an
insertion-ordered association list from sid to `Player`. -/
structure Room where
  room_id : String
  players : List (String × Player)
  turn : Nat
  max_players : Nat
  turn_deadline : Int
  timer_active : Bool
deriving Repr, DecidableEq

/-- The global registry `rooms : Dict[str, Room]`, insertion ordered. -/
abbrev Registry := List (String × Room)

/-- Messages emitted with `sio.emit`; the last argument is the target
(`room=sid` for one connection, `room=room_id` for a whole room). -/
inductive Out where
  | room_joined (roomId : String) (isHost : Bool) (target : String)
  | error_msg (message : String) (target : String)
  | system_message (message : String) (target : String)
  | player_list (players : List (String × String × String)) (target : String)
  | timer_start (deadline : Int) (target : String)
  | receive_external_actions (actions : List String) (fromName : String) (target : String)
  | proceed_turn (turn : Nat) (target : String)
deriving Repr, DecidableEq

/-- Python dict lookup `d.get(k)`: the first binding of the key. -/
def dget {α : Type} (d : List (String × α)) (k : String) : Option α :=
  match d with
  | [] => none
  | (k', v) :: rest => if k' = k then some v else dget rest k

/-- Python dict assignment `d[k] = v`: replace in place if the key is
present, otherwise append (dict insertion order). -/
def dset {α : Type} (d : List (String × α)) (k : String) (v : α) : List (String × α) :=
  match d with
  | [] => [(k, v)]
  | (k', v') :: rest => if k' = k then (k, v) :: rest else (k', v') :: dset rest k v

/-- Python dict deletion `del d[k]`: remove the binding of the key. -/
def ddel {α : Type} (d : List (String × α)) (k : String) : List (String × α) :=
  match d with
  | [] => []
  | (k', v') :: rest => if k' = k then rest else (k', v') :: ddel rest k

/-- The grace period `3 * 60` seconds used in `submit_turn_action`. -/
def GRACE_PERIOD : Int := 180

/-- Count of finished players, `sum(1 for p in players if p.is_turn_done)`. -/
def done_count (room : Room) : Nat :=
  (room.players.filter fun p => p.2.is_turn_done).length

/-- The `should_proceed` decision of `check_turn_progression`:
everyone done, or at least one done and the armed deadline has passed. -/
def advance_cond (room : Room) (now : Int) : Bool :=
  (done_count room == room.players.length) ||
    (decide (0 < done_count room) && room.timer_active &&
      decide (room.turn_deadline ≤ now))

/-- The mutation performed on an advancing room: increment `turn`,
clear `timer_active`, reset every player's `is_turn_done`. -/
def advance_room (room : Room) : Room :=
  { room with
    turn := room.turn + 1
    timer_active := false
    players := room.players.map fun kp => (kp.1, { kp.2 with is_turn_done := false }) }

/-- Handler `check_turn_progression(room_id)` from `server.py`, as a function of
the registry and the current time. -/
def check_turn_progression (rooms : Registry) (room_id : String) (now : Int) :
    Registry × List Out :=
  match dget rooms room_id with
  | none => (rooms, [])
  | some room =>
    if room.players.length = 0 then (rooms, [])
    else if advance_cond room now then
      (dset rooms room_id (advance_room room),
        [Out.proceed_turn (room.turn + 1) room_id])
    else (rooms, [])

/-- Arming the grace timer: `timer_active = True`,
`turn_deadline = time.time() + 3 * 60`. -/
def arm_timer (room : Room) (now : Int) : Room :=
  { room with timer_active := true, turn_deadline := now + GRACE_PERIOD }

/-- Recording a submission: `player.save_data = saveData`,
`player.is_turn_done = True` (no-op when the sid is not a member). -/
def submitted_room (room : Room) (sid save : String) : Room :=
  match dget room.players sid with
  | none => room
  | some player =>
    { room with
      players := dset room.players sid
        { player with save_data := save, is_turn_done := true } }

/-- Payload of the `submit_turn_action` event. -/
structure SubmitData where
  roomId : String
  saveData : String
  outgoingActions : List String
deriving Repr, DecidableEq

/-- Handler `submit_turn_action(sid, data)` from `server.py`. -/
def submit_turn_action (rooms : Registry) (sid : String) (data : SubmitData)
    (now : Int) : Registry × List Out :=
  match dget rooms data.roomId with
  | none => (rooms, [])
  | some room =>
    match dget room.players sid with
    | none => (rooms, [])
    | some player =>
      let room1 := submitted_room room sid data.saveData
      let dc := done_count room1
      let room2 := if dc = 1 then arm_timer room1 now else room1
      let ev1 : List Out :=
        if dc = 1 then [Out.timer_start (now + GRACE_PERIOD) data.roomId] else []
      let ev2 : List Out :=
        if data.outgoingActions.isEmpty then []
        else [Out.receive_external_actions data.outgoingActions
          player.island_name data.roomId]
      let ev3 : List Out :=
        [Out.system_message
          (player.island_name ++ "がターンを終了しました (" ++ toString dc ++ "/" ++
            toString room1.players.length ++ ")") data.roomId]
      let step := check_turn_progression (dset rooms data.roomId room2) data.roomId now
      (step.1, ev1 ++ ev2 ++ ev3 ++ step.2)

/-- Payload of the `join_room` event. -/
structure JoinData where
  roomId : String
  islandName : String
  saveData : String
deriving Repr, DecidableEq

/-- Handler `join_room(sid, data)` from `server.py`. -/
def join_room (rooms : Registry) (sid : String) (data : JoinData) :
    Registry × List Out :=
  match dget rooms data.roomId with
  | none => (rooms, [Out.error_msg "部屋が見つかりません" sid])
  | some room =>
    if room.max_players ≤ room.players.length then
      (rooms, [Out.error_msg "部屋が満員です" sid])
    else
      let p : Player := ⟨sid, data.islandName, data.saveData, false, []⟩
      (dset rooms data.roomId { room with players := dset room.players sid p },
        [Out.room_joined data.roomId false sid,
          Out.system_message (data.islandName ++ "が入室しました") data.roomId])

/-- Handler `update_state(sid, data)` from `server.py`. -/
def update_state (rooms : Registry) (sid roomId saveData : String) :
    Registry × List Out :=
  match dget rooms roomId with
  | none => (rooms, [])
  | some room =>
    match dget room.players sid with
    | none => (rooms, [])
    | some player =>
      (dset rooms roomId
        { room with players := dset room.players sid { player with save_data := saveData } },
        [])

/-- Handler `get_player_list(sid, data)` from `server.py`. -/
def get_player_list (rooms : Registry) (sid roomId : String) :
    Registry × List Out :=
  match dget rooms roomId with
  | none => (rooms, [])
  | some room =>
    (rooms,
      [Out.player_list
        (room.players.map fun kp => (kp.1, kp.2.island_name, kp.2.save_data)) sid])

/-- Handler `disconnect(sid)` from `server.py`: remove the sid from the first
room containing it, delete the room if it became empty, then stop. -/
def disconnect (rooms : Registry) (sid : String) : Registry × List Out :=
  match rooms with
  | [] => ([], [])
  | (rid, room) :: rest =>
    match dget room.players sid with
    | some p =>
      let players' := ddel room.players sid
      if players' = [] then
        (rest, [Out.system_message (p.island_name ++ "が退出しました") rid])
      else
        ((rid, { room with players := players' }) :: rest,
          [Out.system_message (p.island_name ++ "が退出しました") rid])
    | none =>
      let r := disconnect rest sid
      ((rid, room) :: r.1, r.2)

/-- A freshly constructed `Room(room_id)`. -/
def Room.new (room_id : String) : Room :=
  { room_id := room_id, players := [], turn := 0, max_players := 7
    turn_deadline := 0, timer_active := false }

/-- The body of `create_room` once a fresh identifier has been chosen:
insert the new room, add the creator, acknowledge with `room_joined`. -/
def create_room_with (rooms : Registry) (room_id sid islandName saveData : String) :
    Registry × List Out :=
  let p : Player := ⟨sid, islandName, saveData, false, []⟩
  (dset rooms room_id { Room.new room_id with players := [(sid, p)] },
    [Out.room_joined room_id true sid])

/-- One random digit character, `random.choices(string.digits)`. -/
def digitChar (d : Fin 10) : Char := Char.ofNat (48 + d.val)

/-- One random uppercase character, `random.choices(string.ascii_uppercase)`. -/
def upperChar (c : Fin 26) : Char := Char.ofNat (65 + c.val)

/-- One draw of the randomness consumed by `generate_room_id`. -/
structure IdSeed where
  d0 : Fin 10
  d1 : Fin 10
  d2 : Fin 10
  c0 : Fin 26
  c1 : Fin 26

/-- Generator `generate_room_id()` from `server.py`: three random digits followed
by two random uppercase letters, as a function of the random draw. -/
def generate_room_id (s : IdSeed) : String :=
  String.mk [digitChar s.d0, digitChar s.d1, digitChar s.d2, upperChar s.c0, upperChar s.c1]

/-- The `while room_id in rooms` regeneration loop of `create_room`,
with explicit fuel in place of the unbounded retry. -/
def create_room_pick (fuel : Nat) (seeds : Nat → IdSeed) (rooms : Registry)
    (i : Nat) : Option String :=
  match fuel with
  | 0 => none
  | fuel' + 1 =>
    let id := generate_room_id (seeds i)
    if (dget rooms id).isSome then create_room_pick fuel' seeds rooms (i + 1)
    else some id

/-- Handler `create_room(sid, data)` from `server.py`: pick a fresh identifier
by regeneration, then create the room with the creator inside. -/
def create_room (fuel : Nat) (seeds : Nat → IdSeed) (rooms : Registry)
    (sid islandName saveData : String) : Registry × List Out :=
  match create_room_pick fuel seeds rooms 0 with
  | none => (rooms, [])
  | some rid => create_room_with rooms rid sid islandName saveData

/-- Observation of a room's timer flag and completion count. -/
def room_view (rooms : Registry) (rid : String) : Option (Bool × Nat) :=
  match dget rooms rid with
  | none => none
  | some r => some (r.timer_active, done_count r)

/-- Observation of a room's timer flag and deadline. -/
def timer_view (rooms : Registry) (rid : String) : Option (Bool × Int) :=
  match dget rooms rid with
  | none => none
  | some r => some (r.timer_active, r.turn_deadline)

/-- Observation of one player's `is_turn_done` flag. -/
def player_done_view (rooms : Registry) (rid psid : String) : Option Bool :=
  match dget rooms rid with
  | none => none
  | some r =>
    match dget r.players psid with
    | none => none
    | some p => some p.is_turn_done

/-- A single finished player, used as concrete test data. -/
def pC1 : Player := ⟨"A", "IslA", "sv", true, []⟩

/-- A one-player room whose player has finished. -/
def rC1 : Room :=
  { room_id := "123AB", players := [("A", pC1)], turn := 0, max_players := 7,
    turn_deadline := 0, timer_active := false }

/-- A registry holding only `rC1`. -/
def RC1 : Registry := [("123AB", rC1)]

/-- A room at capacity: seven members, `max_players = 7`. -/
def rC6 : Room :=
  { room_id := "123AB",
    players :=
      [("P1", ⟨"P1", "I1", "s", false, []⟩), ("P2", ⟨"P2", "I2", "s", false, []⟩),
        ("P3", ⟨"P3", "I3", "s", false, []⟩), ("P4", ⟨"P4", "I4", "s", false, []⟩),
        ("P5", ⟨"P5", "I5", "s", false, []⟩), ("P6", ⟨"P6", "I6", "s", false, []⟩),
        ("P7", ⟨"P7", "I7", "s", false, []⟩)],
    turn := 0, max_players := 7, turn_deadline := 0, timer_active := false }

/-- A one-player room used for the disconnect no-op test. -/
def rC7 : Room :=
  { room_id := "123AB", players := [("A", ⟨"A", "IslA", "sv", false, []⟩)],
    turn := 0, max_players := 7, turn_deadline := 0, timer_active := false }

/-- A room not containing sid `A`. -/
def rC10a : Room :=
  { room_id := "111AA", players := [("B", ⟨"B", "IslB", "sv", false, []⟩)],
    turn := 0, max_players := 7, turn_deadline := 0, timer_active := false }

/-- The first room containing sid `A`, with another member. -/
def rC10b : Room :=
  { room_id := "123AB",
    players := [("A", ⟨"A", "IslA", "sv", false, []⟩), ("C", ⟨"C", "IslC", "sv", false, []⟩)],
    turn := 0, max_players := 7, turn_deadline := 0, timer_active := false }

/-- A second room also containing sid `A`. -/
def rC10c : Room :=
  { room_id := "222BB", players := [("A", ⟨"A", "IslA2", "sv", false, []⟩)],
    turn := 0, max_players := 7, turn_deadline := 0, timer_active := false }

/-- A fresh two-player room: `A` and `B`, nobody finished, timer off. -/
def rC2 : Room :=
  { room_id := "123AB",
    players := [("A", ⟨"A", "IslA", "sv", false, []⟩), ("B", ⟨"B", "IslB", "sv", false, []⟩)],
    turn := 0, max_players := 7, turn_deadline := 0, timer_active := false }

/-- Registry reached by: `A` creates room `123AB`, `B` joins it. -/
def C2pre : Registry :=
  (join_room (create_room_with [] "123AB" "A" "IslA" "sv").1 "B" ⟨"123AB", "IslB", "sv"⟩).1

/-- Player `A` submits first at time 0: the grace timer arms with deadline 180. -/
def C2s1 : Registry × List Out := submit_turn_action C2pre "A" ⟨"123AB", "sv2", []⟩ 0

/-- Player `A`, already finished, submits again at time 10. -/
def C2s2 : Registry × List Out := submit_turn_action C2s1.1 "A" ⟨"123AB", "sv3", []⟩ 10

/-- Player `A` submits first at time 100 in the two-player room: deadline 280. -/
def C3s : Registry × List Out := submit_turn_action C2pre "A" ⟨"123AB", "sv2", []⟩ 100

/-- The sole finisher `A` then disconnects. -/
def C3r : Registry := (disconnect C3s.1 "A").1

/-- A one-player room whose sole member has not finished. -/
def rC4 : Room :=
  { room_id := "123AB", players := [("A", ⟨"A", "IslA", "sv", false, []⟩)],
    turn := 0, max_players := 7, turn_deadline := 0, timer_active := false }

/-- The sole member of a fresh one-player room submits at time 100. -/
def C4s : Registry × List Out :=
  submit_turn_action (create_room_with [] "123AB" "A" "IslA" "sv").1 "A" ⟨"123AB", "sv2", []⟩ 100

/-! ### Association-list lemmas -/

theorem dget_dset_self {α : Type} (d : List (String × α)) (k : String) (v : α) :
    dget (dset d k v) k = some v := by
  induction d with
  | nil => simp [dget, dset]
  | cons q rest ih =>
    obtain ⟨k', v'⟩ := q
    by_cases h : k' = k <;> simp [dget, dset, h, ih]

theorem dget_dset_ne {α : Type} (d : List (String × α)) (k k' : String) (v : α)
    (h : k' ≠ k) : dget (dset d k v) k' = dget d k' := by
  induction d with
  | nil => simp [dget, dset, Ne.symm h]
  | cons q rest ih =>
    obtain ⟨k0, v0⟩ := q
    by_cases h0 : k0 = k
    · subst h0
      simp [dget, dset, Ne.symm h]
    · simp [dget, dset, h0, ih]

theorem dset_length {α : Type} (d : List (String × α)) (k : String) (v : α) :
    (dset d k v).length = if (dget d k).isSome then d.length else d.length + 1 := by
  induction d with
  | nil => simp [dget, dset]
  | cons q rest ih =>
    obtain ⟨k0, v0⟩ := q
    by_cases h0 : k0 = k
    · simp [dget, dset, h0]
    · simp only [dget, dset, h0, if_false, if_neg h0, List.length_cons, ih]
      split <;> omega

theorem dget_eq_none_of_not_mem_keys {α : Type} (d : List (String × α)) (k : String)
    (h : k ∉ d.map Prod.fst) : dget d k = none := by
  induction d with
  | nil => rfl
  | cons q rest ih =>
    obtain ⟨k0, v0⟩ := q
    simp only [List.map_cons, List.mem_cons, not_or] at h
    have hne : k0 ≠ k := fun hh => h.1 hh.symm
    simp [dget, hne, ih h.2]

/-! ### Unfolding lemmas for the handlers -/

theorem check_eq_none {rooms : Registry} {rid : String} {now : Int}
    (h : dget rooms rid = none) :
    check_turn_progression rooms rid now = (rooms, []) := by
  simp [check_turn_progression, h]

theorem check_eq_some {rooms : Registry} {rid : String} {now : Int} {room : Room}
    (h : dget rooms rid = some room) :
    check_turn_progression rooms rid now =
      if room.players.length = 0 then (rooms, [])
      else if advance_cond room now then
        (dset rooms rid (advance_room room), [Out.proceed_turn (room.turn + 1) rid])
      else (rooms, []) := by
  simp [check_turn_progression, h]

theorem advance_cond_iff (room : Room) (now : Int) :
    advance_cond room now = true ↔
      (done_count room = room.players.length ∨
        (0 < done_count room ∧ room.timer_active = true ∧ room.turn_deadline ≤ now)) := by
  simp [advance_cond, Bool.or_eq_true, Bool.and_eq_true, decide_eq_true_iff, and_assoc]

theorem check_no_timer_start (rooms : Registry) (rid : String) (now : Int)
    (d : Int) (t : String) :
    Out.timer_start d t ∉ (check_turn_progression rooms rid now).2 := by
  cases h : dget rooms rid with
  | none => rw [check_eq_none h]; simp
  | some room =>
    rw [check_eq_some h]
    split
    · simp
    · split <;> simp

theorem submitted_room_deadline (room : Room) (sid save : String) :
    (submitted_room room sid save).turn_deadline = room.turn_deadline := by
  unfold submitted_room
  cases dget room.players sid <;> rfl

theorem advance_room_deadline (room : Room) :
    (advance_room room).turn_deadline = room.turn_deadline := rfl

theorem submit_eq {rooms : Registry} {sid : String} {data : SubmitData} {now : Int}
    {room : Room} {player : Player}
    (hr : dget rooms data.roomId = some room)
    (hp : dget room.players sid = some player) :
    submit_turn_action rooms sid data now =
      ((check_turn_progression (dset rooms data.roomId
          (if done_count (submitted_room room sid data.saveData) = 1
            then arm_timer (submitted_room room sid data.saveData) now
            else submitted_room room sid data.saveData)) data.roomId now).1,
        (if done_count (submitted_room room sid data.saveData) = 1
          then [Out.timer_start (now + GRACE_PERIOD) data.roomId] else []) ++
        (if data.outgoingActions.isEmpty then []
          else [Out.receive_external_actions data.outgoingActions
            player.island_name data.roomId]) ++
        [Out.system_message (player.island_name ++ "がターンを終了しました (" ++
          toString (done_count (submitted_room room sid data.saveData)) ++ "/" ++
          toString (submitted_room room sid data.saveData).players.length ++ ")")
          data.roomId] ++
        (check_turn_progression (dset rooms data.roomId
          (if done_count (submitted_room room sid data.saveData) = 1
            then arm_timer (submitted_room room sid data.saveData) now
            else submitted_room room sid data.saveData)) data.roomId now).2) := by
  simp only [submit_turn_action, hr, hp]

theorem check_deadline_at (R : Registry) (rid : String) (now : Int) (r r' : Room)
    (h : dget R rid = some r)
    (h' : dget (check_turn_progression R rid now).1 rid = some r') :
    r'.turn_deadline = r.turn_deadline := by
  rw [check_eq_some h] at h'
  by_cases h0 : r.players.length = 0
  · rw [if_pos h0] at h'
    simp only at h'
    rw [h] at h'
    cases h'
    rfl
  · rw [if_neg h0] at h'
    by_cases hc : advance_cond r now = true
    · rw [if_pos hc] at h'
      simp only at h'
      rw [dget_dset_self] at h'
      cases h'
      rfl
    · rw [if_neg hc] at h'
      simp only at h'
      rw [h] at h'
      cases h'
      rfl

theorem disconnect_absent (rooms : Registry) (sid : String)
    (h : ∀ q ∈ rooms, dget q.2.players sid = none) :
    disconnect rooms sid = (rooms, []) := by
  induction rooms with
  | nil => rfl
  | cons q rest ih =>
    obtain ⟨k, rm⟩ := q
    have h1 : dget rm.players sid = none := h (k, rm) (by simp)
    have h2 := ih fun q hq => h q (List.mem_cons_of_mem _ hq)
    simp [disconnect, h1, h2]

theorem disconnect_split (pre : Registry) (rid : String) (room : Room)
    (post : Registry) (sid : String) (p : Player)
    (hpre : ∀ q ∈ pre, dget q.2.players sid = none)
    (hp : dget room.players sid = some p) :
    disconnect (pre ++ (rid, room) :: post) sid =
      (pre ++ (if ddel room.players sid = [] then post
        else (rid, { room with players := ddel room.players sid }) :: post),
        [Out.system_message (p.island_name ++ "が退出しました") rid]) := by
  induction pre with
  | nil =>
    simp only [List.nil_append]
    simp only [disconnect, hp]
    split <;> simp [*]
  | cons q pre' ih =>
    obtain ⟨k, rm⟩ := q
    have h1 : dget rm.players sid = none := hpre (k, rm) (by simp)
    have h2 := ih fun q hq => hpre q (List.mem_cons_of_mem _ hq)
    simp [disconnect, h1, h2]

theorem disconnect_preserves_timer (rooms : Registry) (sid rid : String)
    (room r' : Room)
    (hnd : (rooms.map Prod.fst).Nodup)
    (hr : dget rooms rid = some room)
    (h' : dget (disconnect rooms sid).1 rid = some r') :
    r'.timer_active = room.timer_active ∧ r'.turn_deadline = room.turn_deadline := by
  induction rooms with
  | nil => cases hr
  | cons q rest ih =>
    obtain ⟨k, rm⟩ := q
    simp only [List.map_cons, List.nodup_cons] at hnd
    by_cases hk : k = rid
    · subst hk
      have hroom : rm = room := by simpa [dget] using hr
      subst hroom
      cases hpl : dget rm.players sid with
      | some p =>
        simp only [disconnect, hpl] at h'
        by_cases he : ddel rm.players sid = []
        · rw [if_pos he] at h'
          simp only at h'
          rw [dget_eq_none_of_not_mem_keys rest k hnd.1] at h'
          cases h'
        · rw [if_neg he] at h'
          simp only [dget, if_pos rfl] at h'
          cases h'
          exact ⟨rfl, rfl⟩
      | none =>
        simp only [disconnect, hpl] at h'
        simp only [dget, if_pos rfl] at h'
        cases h'
        exact ⟨rfl, rfl⟩
    · have hr' : dget rest rid = some room := by simpa [dget, hk] using hr
      cases hpl : dget rm.players sid with
      | some p =>
        simp only [disconnect, hpl] at h'
        by_cases he : ddel rm.players sid = []
        · rw [if_pos he] at h'
          simp only at h'
          rw [hr'] at h'
          cases h'
          exact ⟨rfl, rfl⟩
        · rw [if_neg he] at h'
          simp only [dget, if_neg hk] at h'
          rw [hr'] at h'
          cases h'
          exact ⟨rfl, rfl⟩
      | none =>
        simp only [disconnect, hpl] at h'
        simp only [dget, if_neg hk] at h'
        exact ih hnd.2 hr' h'

theorem join_preserves_timer (rooms : Registry) (sid : String) (d : JoinData)
    (rid : String) (room r' : Room)
    (hr : dget rooms rid = some room)
    (h' : dget (join_room rooms sid d).1 rid = some r') :
    r'.timer_active = room.timer_active ∧ r'.turn_deadline = room.turn_deadline := by
  unfold join_room at h'
  cases hq : dget rooms d.roomId with
  | none =>
    rw [hq] at h'
    simp only at h'
    rw [hr] at h'
    cases h'
    exact ⟨rfl, rfl⟩
  | some rm =>
    rw [hq] at h'
    simp only at h'
    by_cases hfull : rm.max_players ≤ rm.players.length
    · rw [if_pos hfull] at h'
      simp only at h'
      rw [hr] at h'
      cases h'
      exact ⟨rfl, rfl⟩
    · rw [if_neg hfull] at h'
      simp only at h'
      by_cases hid : rid = d.roomId
      · subst hid
        rw [dget_dset_self] at h'
        cases h'
        rw [hq] at hr
        cases hr
        exact ⟨rfl, rfl⟩
      · rw [dget_dset_ne _ _ _ _ hid] at h'
        rw [hr] at h'
        cases h'
        exact ⟨rfl, rfl⟩

theorem update_preserves_timer (rooms : Registry) (sid roomId save : String)
    (rid : String) (room r' : Room)
    (hr : dget rooms rid = some room)
    (h' : dget (update_state rooms sid roomId save).1 rid = some r') :
    r'.timer_active = room.timer_active ∧ r'.turn_deadline = room.turn_deadline := by
  unfold update_state at h'
  cases hq : dget rooms roomId with
  | none =>
    rw [hq] at h'
    simp only at h'
    rw [hr] at h'
    cases h'
    exact ⟨rfl, rfl⟩
  | some rm =>
    rw [hq] at h'
    simp only at h'
    cases hpl : dget rm.players sid with
    | none =>
      rw [hpl] at h'
      simp only at h'
      rw [hr] at h'
      cases h'
      exact ⟨rfl, rfl⟩
    | some player =>
      rw [hpl] at h'
      simp only at h'
      by_cases hid : rid = roomId
      · subst hid
        rw [dget_dset_self] at h'
        cases h'
        rw [hq] at hr
        cases hr
        exact ⟨rfl, rfl⟩
      · rw [dget_dset_ne _ _ _ _ hid] at h'
        rw [hr] at h'
        cases h'
        exact ⟨rfl, rfl⟩

/-! ### Claim theorems -/

/-- Claim C1: for every room with at least one player, `check_turn_progression`
advances exactly when `done_count = total`, or `done_count > 0` with the timer
armed and the current time at or past the deadline; on an advance the turn
increases by exactly one, `timer_active` is cleared, every player's turn flag
is reset to false, and a `proceed_turn` message carrying the new turn number is
broadcast to the room. -/
theorem C1_check_turn_progression
    (rooms : Registry) (rid : String) (now : Int) (room : Room)
    (hr : dget rooms rid = some room) (hne : room.players ≠ []) :
    ((done_count room = room.players.length ∨
        (0 < done_count room ∧ room.timer_active = true ∧ room.turn_deadline ≤ now)) →
      check_turn_progression rooms rid now =
        (dset rooms rid (advance_room room), [Out.proceed_turn (room.turn + 1) rid])) ∧
    (¬(done_count room = room.players.length ∨
        (0 < done_count room ∧ room.timer_active = true ∧ room.turn_deadline ≤ now)) →
      check_turn_progression rooms rid now = (rooms, [])) ∧
    (advance_room room).turn = room.turn + 1 ∧
    (advance_room room).timer_active = false ∧
    ∀ kp ∈ (advance_room room).players, kp.2.is_turn_done = false := by
  have hlen : ¬room.players.length = 0 := by
    simpa [List.length_eq_zero] using hne
  refine ⟨?_, ?_, rfl, rfl, ?_⟩
  · intro hadv
    rw [check_eq_some hr, if_neg hlen, if_pos ((advance_cond_iff room now).2 hadv)]
  · intro hnadv
    have hc : ¬advance_cond room now = true := fun hh =>
      hnadv ((advance_cond_iff room now).1 hh)
    rw [check_eq_some hr, if_neg hlen, if_neg hc]
  · intro kp hkp
    simp only [advance_room, List.mem_map] at hkp
    obtain ⟨a, -, rfl⟩ := hkp
    rfl

/-- Concrete instance of C1: a one-player room with the player finished
advances to turn 1 and broadcasts `proceed_turn`. -/
theorem C1_check_turn_progression_witness :
    check_turn_progression RC1 "123AB" 100 =
      (dset RC1 "123AB" (advance_room rC1), [Out.proceed_turn (rC1.turn + 1) "123AB"]) :=
  (C1_check_turn_progression RC1 "123AB" 100 rC1 (by decide) (by decide)).1 (by decide)

/-- Claim C5 (counterexample): a `submit_turn_action` and an `update_state`
naming an unknown room id produce no output at all — in particular no
room-not-found error is reported to the requester, refuting the claim that
every inbound action against an unknown room id reports it. -/
theorem C5_counterexample :
    submit_turn_action [] "A" ⟨"999ZZ", "sv", []⟩ 0 = ([], []) ∧
    update_state [] "A" "999ZZ" "sv" = ([], []) := ⟨rfl, rfl⟩

/-- Claim C5 (amended): against an unknown room id, `join_room` reports the
room-not-found error to the requester and mutates nothing, while
`submit_turn_action`, `update_state` and `get_player_list` mutate nothing and
emit nothing. -/
theorem C5_unknown_room
    (rooms : Registry) (sid rid name save : String) (acts : List String) (now : Int)
    (h : dget rooms rid = none) :
    join_room rooms sid ⟨rid, name, save⟩ =
      (rooms, [Out.error_msg "部屋が見つかりません" sid]) ∧
    submit_turn_action rooms sid ⟨rid, save, acts⟩ now = (rooms, []) ∧
    update_state rooms sid rid save = (rooms, []) ∧
    get_player_list rooms sid rid = (rooms, []) := by
  refine ⟨?_, ?_, ?_, ?_⟩
  · simp [join_room, h]
  · simp [submit_turn_action, h]
  · simp [update_state, h]
  · simp [get_player_list, h]

/-- Concrete instance of the amended C5 on the empty registry. -/
theorem C5_unknown_room_witness :
    join_room [] "A" ⟨"999ZZ", "IslA", "sv"⟩ =
      ([], [Out.error_msg "部屋が見つかりません" "A"]) ∧
    submit_turn_action [] "A" ⟨"999ZZ", "sv", []⟩ 0 = ([], []) ∧
    update_state [] "A" "999ZZ" "sv" = ([], []) ∧
    get_player_list [] "A" "999ZZ" = ([], []) :=
  C5_unknown_room [] "A" "999ZZ" "IslA" "sv" [] 0 rfl

/-- Claim C6: `join_room` fails with the room-not-found error when the id is
absent; fails with the room-full error, leaving the registry unchanged, when
membership is at least `max_players` (which is 7 for every created room); and
otherwise inserts the player, acknowledges the requester, and keeps membership
at most `max_players`. -/
theorem C6_join_room
    (rooms : Registry) (sid : String) (data : JoinData) :
    (dget rooms data.roomId = none →
      join_room rooms sid data = (rooms, [Out.error_msg "部屋が見つかりません" sid])) ∧
    (∀ room, dget rooms data.roomId = some room →
      room.max_players ≤ room.players.length →
      join_room rooms sid data = (rooms, [Out.error_msg "部屋が満員です" sid])) ∧
    (∀ room, dget rooms data.roomId = some room →
      room.players.length < room.max_players →
      join_room rooms sid data =
        (dset rooms data.roomId
          { room with players := dset room.players sid (Player.mk sid data.islandName data.saveData false []) },
          [Out.room_joined data.roomId false sid,
            Out.system_message (data.islandName ++ "が入室しました") data.roomId]) ∧
        (dset room.players sid
          (Player.mk sid data.islandName data.saveData false [])).length ≤ room.max_players) ∧
    ∀ rid0, (Room.new rid0).max_players = 7 := by
  refine ⟨?_, ?_, ?_, fun _ => rfl⟩
  · intro h
    simp [join_room, h]
  · intro room hr hfull
    simp [join_room, hr, hfull]
  · intro room hr hlt
    have hnfull : ¬room.max_players ≤ room.players.length := by omega
    refine ⟨by simp [join_room, hr, hnfull], ?_⟩
    rw [dset_length]
    split <;> omega

/-- Concrete instance of C6: an 8th join attempt against a full 7-member room
is rejected with the room-full error and the registry is unchanged. -/
theorem C6_join_room_witness :
    join_room [("123AB", rC6)] "P8" ⟨"123AB", "I8", "s"⟩ =
      ([("123AB", rC6)], [Out.error_msg "部屋が満員です" "P8"]) :=
  (C6_join_room [("123AB", rC6)] "P8" ⟨"123AB", "I8", "s"⟩).2.1 rC6 (by decide) (by decide)

/-- Claim C7: a disconnect removal that leaves the room empty deletes the room
from the registry; a room keeping at least one member is never deleted; and
removing a sid that is a member of no room is a no-op. -/
theorem C7_disconnect_lifecycle
    (rooms : Registry) (sid : String) :
    ((∀ q ∈ rooms, dget q.2.players sid = none) → disconnect rooms sid = (rooms, [])) ∧
    (∀ pre rid room post p, rooms = pre ++ (rid, room) :: post →
      (∀ q ∈ pre, dget q.2.players sid = none) →
      dget room.players sid = some p →
      ((ddel room.players sid = [] → (disconnect rooms sid).1 = pre ++ post) ∧
        (ddel room.players sid ≠ [] →
          (disconnect rooms sid).1 =
            pre ++ (rid, { room with players := ddel room.players sid }) :: post))) := by
  constructor
  · exact disconnect_absent rooms sid
  · intro pre rid room post p hsplit hpre hp
    subst hsplit
    rw [disconnect_split pre rid room post sid p hpre hp]
    constructor
    · intro he
      simp [he]
    · intro he
      simp [if_neg he]

/-- Concrete instance of C7: disconnecting a sid that is in no room leaves the
registry untouched and emits nothing. -/
theorem C7_disconnect_lifecycle_witness :
    disconnect [("123AB", rC7)] "Z" = ([("123AB", rC7)], []) :=
  (C7_disconnect_lifecycle [("123AB", rC7)] "Z").1 (by decide)

/-- Claim C10: a disconnect removes the sid from the first registered room
containing it only; every room after the hit — including further rooms that
contain the same sid — is left in place unchanged. -/
theorem C10_disconnect_first_only
    (pre : Registry) (rid : String) (room : Room) (post : Registry)
    (sid : String) (p : Player)
    (hpre : ∀ q ∈ pre, dget q.2.players sid = none)
    (hp : dget room.players sid = some p) :
    disconnect (pre ++ (rid, room) :: post) sid =
      (pre ++ (if ddel room.players sid = [] then post
        else (rid, { room with players := ddel room.players sid }) :: post),
        [Out.system_message (p.island_name ++ "が退出しました") rid]) ∧
    ∀ q ∈ post, q ∈ (disconnect (pre ++ (rid, room) :: post) sid).1 := by
  have heq := disconnect_split pre rid room post sid p hpre hp
  refine ⟨heq, ?_⟩
  intro q hq
  rw [heq]
  simp only [List.mem_append]
  right
  split
  · exact hq
  · exact List.mem_cons_of_mem _ hq

/-- Concrete instance of C10: with sid `A` in two rooms, the disconnect
removes it from the first and leaves the second room untouched. -/
theorem C10_disconnect_first_only_witness :
    disconnect ([("111AA", rC10a)] ++ ("123AB", rC10b) :: [("222BB", rC10c)]) "A" =
      ([("111AA", rC10a)] ++ (if ddel rC10b.players "A" = [] then [("222BB", rC10c)]
        else ("123AB", { rC10b with players := ddel rC10b.players "A" }) :: [("222BB", rC10c)]),
        [Out.system_message ("IslA" ++ "が退出しました") "123AB"]) :=
  (C10_disconnect_first_only [("111AA", rC10a)] "123AB" rC10b [("222BB", rC10c)] "A"
    ⟨"A", "IslA", "sv", false, []⟩ (by decide) (by decide)).1

/-- Claim C8: when the advance condition fails — including an unknown room id
and a room with no players — `check_turn_progression` performs no mutation and
emits nothing, and repeating it from the resulting state gives the same
non-result. -/
theorem C8_check_idempotent
    (rooms : Registry) (rid : String) (now : Int)
    (h : dget rooms rid = none ∨
      ∃ room, dget rooms rid = some room ∧
        (room.players = [] ∨ advance_cond room now = false)) :
    check_turn_progression rooms rid now = (rooms, []) ∧
    check_turn_progression (check_turn_progression rooms rid now).1 rid now = (rooms, []) := by
  have h1 : check_turn_progression rooms rid now = (rooms, []) := by
    rcases h with h | ⟨room, hr, hc | hc⟩
    · exact check_eq_none h
    · rw [check_eq_some hr, if_pos (by simp [hc])]
    · rw [check_eq_some hr]
      split
      · rfl
      · rw [if_neg (by simp [hc])]
  refine ⟨h1, ?_⟩
  rw [h1]
  exact h1

/-- Concrete instance of C8 on the empty registry. -/
theorem C8_check_idempotent_witness :
    check_turn_progression [] "123AB" 0 = ([], []) ∧
    check_turn_progression (check_turn_progression [] "123AB" 0).1 "123AB" 0 = ([], []) :=
  C8_check_idempotent [] "123AB" 0 (Or.inl rfl)

/-- Characters produced for the digit part of a room id are decimal digits. -/
theorem digitChar_isDigit : ∀ d : Fin 10, (digitChar d).isDigit = true := by decide

/-- Characters produced for the letter part of a room id are uppercase. -/
theorem upperChar_isUpper : ∀ c : Fin 26, (upperChar c).isUpper = true := by decide

/-- Every generated identifier is three digits followed by two uppercase
letters. -/
theorem generate_room_id_format (s : IdSeed) :
    (generate_room_id s).length = 5 ∧
    ((generate_room_id s).toList.take 3).all Char.isDigit = true ∧
    ((generate_room_id s).toList.drop 3).all Char.isUpper = true := by
  refine ⟨rfl, ?_, ?_⟩
  · simp [generate_room_id, String.toList, digitChar_isDigit s.d0,
      digitChar_isDigit s.d1, digitChar_isDigit s.d2]
  · simp [generate_room_id, String.toList, upperChar_isUpper s.c0, upperChar_isUpper s.c1]

/-- Claim C9: every identifier returned by the regeneration loop consists of
exactly three decimal digits followed by two uppercase letters, and at the
moment of issuance it is absent from the registry. -/
theorem C9_room_id_generation
    (fuel : Nat) (seeds : Nat → IdSeed) (rooms : Registry) (i : Nat) (id : String)
    (h : create_room_pick fuel seeds rooms i = some id) :
    dget rooms id = none ∧ id.length = 5 ∧
    (id.toList.take 3).all Char.isDigit = true ∧
    (id.toList.drop 3).all Char.isUpper = true := by
  induction fuel generalizing i with
  | zero => cases h
  | succ fuel ih =>
    unfold create_room_pick at h
    by_cases hmem : (dget rooms (generate_room_id (seeds i))).isSome
    · rw [if_pos hmem] at h
      exact ih (i + 1) h
    · rw [if_neg hmem] at h
      cases h
      exact ⟨Option.not_isSome_iff_eq_none.mp hmem, generate_room_id_format (seeds i)⟩

/-- Concrete instance of C9: a single draw of all-zero randomness yields the
fresh, well-formatted identifier `000AA`. -/
theorem C9_room_id_generation_witness :
    dget ([] : Registry) "000AA" = none ∧ ("000AA" : String).length = 5 ∧
    (("000AA" : String).toList.take 3).all Char.isDigit = true ∧
    (("000AA" : String).toList.drop 3).all Char.isUpper = true :=
  C9_room_id_generation 1 (fun _ => ⟨0, 0, 0, 0, 0⟩) [] 0 "000AA" (by decide)

/-- Claim C2 (counterexample): after `A` has already submitted (timer armed at
deadline 180, `A` the only finished player), a repeated submission by `A` at
time 10 re-arms the timer, broadcasts `timer_start` again, and moves the
deadline from 180 to 190 — although `done_count` did not transition from 0
to 1. -/
theorem C2_counterexample :
    player_done_view C2s1.1 "123AB" "A" = some true ∧
    room_view C2s1.1 "123AB" = some (true, 1) ∧
    timer_view C2s1.1 "123AB" = some (true, 180) ∧
    Out.timer_start 190 "123AB" ∈ C2s2.2 ∧
    timer_view C2s2.1 "123AB" = some (true, 190) := by decide

/-- Claim C2 (amended): `submit_turn_action` by a registered member of an
existing room arms the grace timer — `timer_active` true, deadline
`now + GRACE_PERIOD`, `timer_start` broadcast — exactly when the recorded
submission leaves the room's `done_count` equal to 1, whether or not it was a
0-to-1 transition; when `done_count` differs from 1 no `timer_start` is
emitted and the room's deadline is not moved. -/
theorem C2_submit_timer
    (rooms : Registry) (sid : String) (data : SubmitData) (now : Int)
    (room : Room) (player : Player)
    (hr : dget rooms data.roomId = some room)
    (hp : dget room.players sid = some player) :
    (done_count (submitted_room room sid data.saveData) = 1 →
      Out.timer_start (now + GRACE_PERIOD) data.roomId ∈
        (submit_turn_action rooms sid data now).2) ∧
    (done_count (submitted_room room sid data.saveData) ≠ 1 →
      (∀ d t, Out.timer_start d t ∉ (submit_turn_action rooms sid data now).2) ∧
      ∀ r', dget (submit_turn_action rooms sid data now).1 data.roomId = some r' →
        r'.turn_deadline = room.turn_deadline) := by
  constructor
  · intro hdc
    rw [submit_eq hr hp]
    simp [hdc]
  · intro hdc
    constructor
    · intro d t
      rw [submit_eq hr hp]
      rw [if_neg hdc, if_neg hdc]
      intro hmem
      simp only [List.nil_append, List.mem_append, List.mem_singleton] at hmem
      rcases hmem with (hmem | hmem) | hmem
      · revert hmem
        split <;> simp
      · cases hmem
      · exact check_no_timer_start _ _ _ d t hmem
    · intro r' h'
      rw [submit_eq hr hp] at h'
      rw [if_neg hdc] at h'
      simp only at h'
      have h0 : dget (dset rooms data.roomId (submitted_room room sid data.saveData))
          data.roomId = some (submitted_room room sid data.saveData) :=
        dget_dset_self _ _ _
      have hd := check_deadline_at _ _ now _ r' h0 h'
      rw [hd, submitted_room_deadline]

/-- Concrete instance of the amended C2: the first submission in the
two-player room arms the timer and broadcasts the deadline. -/
theorem C2_submit_timer_witness :
    Out.timer_start ((0 : Int) + GRACE_PERIOD) "123AB" ∈
      (submit_turn_action [("123AB", rC2)] "A" ⟨"123AB", "sv2", []⟩ 0).2 :=
  (C2_submit_timer [("123AB", rC2)] "A" ⟨"123AB", "sv2", []⟩ 0 rC2
    ⟨"A", "IslA", "sv", false, []⟩ (by decide) (by decide)).1 (by decide)

/-- Claim C3 (counterexample): in a reachable state — `A` creates room
`123AB`, `B` joins, `A` submits at time 100 (timer armed, deadline 280), then
`A` disconnects — the room keeps `timer_active = true` with deadline 280 while
`done_count = 0`, refuting the claimed if-and-only-if invariant. -/
theorem C3_counterexample :
    room_view C3r "123AB" = some (true, 0) ∧
    timer_view C3r "123AB" = some (true, 280) := by decide

/-- Claim C3 (amended): `disconnect`, `join_room` and `update_state` never
modify a surviving room's `timer_active` or `turn_deadline`;
`check_turn_progression` leaves the state untouched when the advance condition
fails and clears the timer exactly on an advance — so an armed timer stays
armed until an advance fires, but it may remain armed while `done_count = 0`
or `done_count = total` after disconnections. -/
theorem C3_timer_frame
    (rooms : Registry) (rid : String) (room : Room)
    (hnd : (rooms.map Prod.fst).Nodup)
    (hr : dget rooms rid = some room) :
    (∀ sid r', dget (disconnect rooms sid).1 rid = some r' →
      r'.timer_active = room.timer_active ∧ r'.turn_deadline = room.turn_deadline) ∧
    (∀ sid d r', dget (join_room rooms sid d).1 rid = some r' →
      r'.timer_active = room.timer_active ∧ r'.turn_deadline = room.turn_deadline) ∧
    (∀ sid roomId save r', dget (update_state rooms sid roomId save).1 rid = some r' →
      r'.timer_active = room.timer_active ∧ r'.turn_deadline = room.turn_deadline) ∧
    (∀ now, advance_cond room now = false →
      check_turn_progression rooms rid now = (rooms, [])) ∧
    (∀ now, room.players ≠ [] → advance_cond room now = true →
      dget (check_turn_progression rooms rid now).1 rid = some (advance_room room) ∧
      (advance_room room).timer_active = false) := by
  refine ⟨?_, ?_, ?_, ?_, ?_⟩
  · intro sid r' h'
    exact disconnect_preserves_timer rooms sid rid room r' hnd hr h'
  · intro sid d r' h'
    exact join_preserves_timer rooms sid d rid room r' hr h'
  · intro sid roomId save r' h'
    exact update_preserves_timer rooms sid roomId save rid room r' hr h'
  · intro now hc
    rw [check_eq_some hr]
    split
    · rfl
    · rw [if_neg (by simp [hc])]
  · intro now hne hc
    have hlen : ¬room.players.length = 0 := by
      simpa [List.length_eq_zero] using hne
    rw [check_eq_some hr, if_neg hlen, if_pos hc]
    exact ⟨dget_dset_self _ _ _, rfl⟩

/-- Concrete instance of the amended C3: with nobody finished, the periodic
re-evaluation leaves the registry untouched. -/
theorem C3_timer_frame_witness :
    check_turn_progression [("123AB", rC2)] "123AB" 0 = ([("123AB", rC2)], []) :=
  ((C3_timer_frame [("123AB", rC2)] "123AB" rC2 (by decide) (by decide)).2.2.2.1)
    0 (by decide)

/-- Claim C4 (counterexample): when the sole member of a one-player room
submits, a `timer_start` notification with deadline `100 + 180 = 280` is
emitted during the exchange — the timer is transiently armed before the
advance clears it — refuting the claim that no timer-start is emitted. -/
theorem C4_counterexample :
    Out.timer_start 280 "123AB" ∈ C4s.2 ∧
    timer_view (create_room_with [] "123AB" "A" "IslA" "sv").1 "123AB" =
      some (false, 0) := by decide

/-- Claim C4 (amended): in a one-player room the submission advances the turn
immediately within the same exchange — the turn increases by one, the room
ends with `timer_active = false` and `done_count = 0` — but the grace timer is
transiently armed and a `timer_start` notification is emitted before the
`proceed_turn` broadcast. -/
theorem C4_single_player_submit
    (rooms : Registry) (rid sid : String) (p : Player) (data : SubmitData) (now : Int)
    (room : Room)
    (hr : dget rooms data.roomId = some room)
    (hps : room.players = [(sid, p)])
    (hid : data.roomId = rid)
    (ha : data.outgoingActions = []) :
    submit_turn_action rooms sid data now =
      (dset (dset rooms rid (arm_timer (submitted_room room sid data.saveData) now)) rid
        (advance_room (arm_timer (submitted_room room sid data.saveData) now)),
        [Out.timer_start (now + GRACE_PERIOD) rid,
          Out.system_message
            (p.island_name ++ "がターンを終了しました (" ++ "1" ++ "/" ++ "1" ++ ")") rid,
          Out.proceed_turn (room.turn + 1) rid]) ∧
    (advance_room (arm_timer (submitted_room room sid data.saveData) now)).turn =
      room.turn + 1 ∧
    (advance_room (arm_timer (submitted_room room sid data.saveData) now)).timer_active =
      false ∧
    done_count (advance_room (arm_timer (submitted_room room sid data.saveData) now)) = 0 := by
  subst hid
  have hp : dget room.players sid = some p := by
    rw [hps]
    simp [dget]
  have hsub : submitted_room room sid data.saveData =
      { room with players :=
          [(sid, { p with save_data := data.saveData, is_turn_done := true })] } := by
    unfold submitted_room
    rw [hp, hps]
    simp [dset]
  have hdc : done_count (submitted_room room sid data.saveData) = 1 := by
    rw [hsub]
    simp [done_count]
  have htos : toString (done_count (submitted_room room sid data.saveData)) = "1" := by
    rw [hdc]
    rfl
  have hlen1 : toString (submitted_room room sid data.saveData).players.length = "1" := by
    have h1 : (submitted_room room sid data.saveData).players.length = 1 := by
      rw [hsub]
      rfl
    rw [h1]
    rfl
  have hlen0 : ¬(arm_timer (submitted_room room sid data.saveData) now).players.length = 0 := by
    rw [hsub]
    simp [arm_timer]
  have hcond : advance_cond (arm_timer (submitted_room room sid data.saveData) now) now
      = true := by
    rw [hsub]
    simp [advance_cond, arm_timer, done_count]
  have hturn : (arm_timer (submitted_room room sid data.saveData) now).turn = room.turn := by
    rw [hsub]
    rfl
  refine ⟨?_, ?_, rfl, ?_⟩
  · rw [submit_eq hr hp]
    simp only [if_pos hdc, ha, List.isEmpty_nil, if_pos rfl, htos, hlen1]
    rw [check_eq_some (dget_dset_self _ _ _), if_neg hlen0, if_pos hcond]
    simp [hturn]
  · rw [hsub]
    rfl
  · rw [hsub]
    simp [advance_room, arm_timer, done_count]

/-- Concrete instance of the amended C4: the fresh one-player room advances to
turn 1 on the sole member's submission, emitting `timer_start` then
`proceed_turn`. -/
theorem C4_single_player_submit_witness :
    submit_turn_action [("123AB", rC4)] "A" ⟨"123AB", "sv2", []⟩ 100 =
      (dset (dset [("123AB", rC4)] "123AB" (arm_timer (submitted_room rC4 "A" "sv2") 100))
        "123AB" (advance_room (arm_timer (submitted_room rC4 "A" "sv2") 100)),
        [Out.timer_start ((100 : Int) + GRACE_PERIOD) "123AB",
          Out.system_message
            ("IslA" ++ "がターンを終了しました (" ++ "1" ++ "/" ++ "1" ++ ")") "123AB",
          Out.proceed_turn (rC4.turn + 1) "123AB"]) :=
  (C4_single_player_submit [("123AB", rC4)] "123AB" "A" ⟨"A", "IslA", "sv", false, []⟩
    ⟨"123AB", "sv2", []⟩ 100 rC4 (by decide) (by decide) rfl rfl).1

end IslandServer
